import Mathlib

/-!
Verification of the MMRshort pump-detection / short-signal service.

This file gives a shallow embedding, in Lean 4, of the parts of the source
that the specification's claims are about, and settles each claim.

Conventions of the embedding:
* Python floats are modelled as rationals (`ℚ`); the spec itself demands only
  a 1e-6 tolerance on numeric comparisons, and every computation in scope is
  a field expression, so `ℚ` is exact where the code is `float`.
* Timestamps are epoch milliseconds (`ℤ`), exactly as the source stores them.
* Per-symbol state that the source keeps in dictionaries or in the sqlite
  database is passed explicitly (lists of rows, association lists).
* Code that swallows exceptions is modelled with `Except`/`Option` where the
  failure is reachable from the embedded arithmetic.
-/

namespace MMRshort

/-- Python's `round` (banker's rounding, half to even) on a rational. -/
def pyRoundInt (q : ℚ) : ℤ :=
  let f : ℤ := ⌊q⌋
  let r : ℚ := q - f
  if r < 1/2 then f
  else if r > 1/2 then f + 1
  else if f % 2 = 0 then f else f + 1

/-- Python's `round(q, n)`: round to `n` decimal digits, half to even. -/
def pyRound (n : ℕ) (q : ℚ) : ℚ :=
  (pyRoundInt (q * 10 ^ n) : ℚ) / 10 ^ n

/-- Python's `abs` on a rational (spelled out so that it evaluates). -/
def ratAbs (q : ℚ) : ℚ := if q < 0 then -q else q

/-! ## Snapshot store (`bot_rest.py`, `scan_market`, lines 355–402)

One element of `self.price_snapshots[symbol]`: a `(timestamp, price, volume)`
tuple.  The list is kept in chronological order, newest last, exactly like
the Python list. -/

structure Snapshot where
  t : ℤ
  price : ℚ
  vol : ℚ
deriving DecidableEq

/-- The adaptive insertion policy of `scan_market` (before pruning).
`snapshots[-1]` is `snaps.getLast?`, `snapshots[-2]` is
`snaps.dropLast.getLast?`; the three cases of the `match` are the
`if not ... / elif len == 1 / else` chain of the source. -/
def insertSnapshot (snaps : List Snapshot) (s : Snapshot) : List Snapshot :=
  match snaps.getLast?, snaps.dropLast.getLast? with
  | none, _ => [s]
  | some s0, none =>
      -- length-one store: append only when more than 1 s has passed
      if s.t - s0.t > 1000 then snaps ++ [s] else snaps
  | some lastS, some prevS =>
      let dp : ℚ := if prevS.price > 0 then ratAbs ((s.price - lastS.price) / lastS.price) * 100 else 0
      let dt : ℤ := s.t - prevS.t
      if dp ≥ 1/2 then snaps ++ [s]
      else if dp ≥ 1/5 ∧ dt > 2000 then snaps ++ [s]
      else if dt > 5000 then snaps ++ [s]
      else snaps.dropLast ++ [s]   -- drift: overwrite the head in place

/-- Age-based pruning after each insert: keep snapshots strictly newer than
`timestamp - 40 min` (`cutoff_time` in the source). -/
def pruneSnapshots (snaps : List Snapshot) (ts : ℤ) : List Snapshot :=
  snaps.filter (fun x => x.t > ts - 40 * 60 * 1000)

/-- One full store update of `scan_market`: adaptive insert, then pruning. -/
def scanInsert (snaps : List Snapshot) (s : Snapshot) : List Snapshot :=
  pruneSnapshots (insertSnapshot snaps s) s.t

/-! ## Pump detector (`bot_rest.py`, `detect_pump`, lines 239–333) -/

inductive PumpType
  | FAST
  | ELITE
deriving DecidableEq

/-- The tuple `(best_increase, best_time, pump_type)` returned on success. -/
structure PumpResult where
  increase : ℚ
  time_minutes : ℚ
  ptype : PumpType
deriving DecidableEq

/-- Python's `max(lst, key=lambda x: x[1])`: first element with maximal
price (later elements replace the best only on a strict increase). -/
def maxByPrice : List Snapshot → Option Snapshot
  | [] => none
  | s :: rest => some (rest.foldl (fun b x => if x.price > b.price then x else b) s)

/-- Python's `min(lst, key=lambda x: x[1])`: first element with minimal price. -/
def minByPrice : List Snapshot → Option Snapshot
  | [] => none
  | s :: rest => some (rest.foldl (fun b x => if x.price < b.price then x else b) s)

/-- Snapshots whose timestamp lies within the last `winMin` minutes of `nowMs`
(the source compares the snapshot's datetime against `now - timedelta`). -/
def recentWindow (snaps : List Snapshot) (nowMs : ℤ) (winMin : ℤ) : List Snapshot :=
  snaps.filter (fun s => s.t ≥ nowMs - winMin * 60000)

/-- The source's `if time <= 0: time = 0.1` adjustment of the min-to-max
elapsed time (in minutes). -/
def floorTime (tm0 : ℚ) : ℚ := if tm0 ≤ 0 then 1/10 else tm0

/-- FAST candidate: at least a 10 % rise inside the 5-minute window, with the
min-to-max elapsed time (floored to 0.1 min when non-positive) at most 5 min. -/
def fastCandidate (snaps : List Snapshot) (nowMs : ℤ) : Option PumpResult :=
  let recent := recentWindow snaps nowMs 5
  if recent.length ≥ 2 then
    match minByPrice recent, maxByPrice recent with
    | some mn, some mx =>
        if mn.price > 0 then
          let inc := (mx.price - mn.price) / mn.price * 100
          let tm := floorTime (((mx.t - mn.t : ℤ) : ℚ) / 1000 / 60)
          if inc ≥ 10 ∧ tm ≤ 5 then some ⟨inc, tm, .FAST⟩ else none
        else none
    | _, _ => none
  else none

/-- ELITE candidate: at least a 20 % rise inside the 20-minute window (the
source imposes no elapsed-time bound on the ELITE branch). -/
def eliteCandidate (snaps : List Snapshot) (nowMs : ℤ) : Option PumpResult :=
  let recent := recentWindow snaps nowMs 20
  if recent.length ≥ 2 then
    match minByPrice recent, maxByPrice recent with
    | some mn, some mx =>
        if mn.price > 0 then
          let inc := (mx.price - mn.price) / mn.price * 100
          let tm := floorTime (((mx.t - mn.t : ℤ) : ℚ) / 1000 / 60)
          if inc ≥ 20 then some ⟨inc, tm, .ELITE⟩ else none
        else none
    | _, _ => none
  else none

/-- The qualification phase of `detect_pump`: FAST strictly outranks ELITE
(`and not is_pump` in the source), and a store with fewer than two
snapshots never qualifies. -/
def pumpCandidate (snaps : List Snapshot) (nowMs : ℤ) : Option PumpResult :=
  if snaps.length < 2 then none
  else
    match fastCandidate snaps nowMs with
    | some r => some r
    | none => eliteCandidate snaps nowMs

/-- The window the staleness filter re-reads (`recent_elite` for an ELITE
candidate, `recent_fast` otherwise). -/
def staleWindow (snaps : List Snapshot) (nowMs : ℤ) (pt : PumpType) : List Snapshot :=
  recentWindow snaps nowMs (match pt with | .ELITE => 20 | .FAST => 5)

/-- `time_since_peak` in minutes, over the staleness window. -/
def peakAgeMin (snaps : List Snapshot) (nowMs : ℤ) (pt : PumpType) : ℚ :=
  match maxByPrice (staleWindow snaps nowMs pt) with
  | some pk => ((nowMs - pk.t : ℤ) : ℚ) / 1000 / 60
  | none => 0

/-- `drop_from_peak` in percent: fall of the latest price from the window peak. -/
def dropFromPeakPct (snaps : List Snapshot) (nowMs : ℤ) (pt : PumpType) : ℚ :=
  match maxByPrice (staleWindow snaps nowMs pt), snaps.getLast? with
  | some pk, some lastS => (pk.price - lastS.price) / pk.price * 100
  | _, _ => 0

/-- Full `detect_pump`: qualification, then the staleness filter, which
discards the candidate exactly when the peak is more than 3 minutes old and
the price has dropped less than 1.5 % from it.  (The inner `none` arms are
unreachable once a candidate exists: the window then holds two snapshots.) -/
def detect_pump (snaps : List Snapshot) (nowMs : ℤ) : Option PumpResult :=
  match pumpCandidate snaps nowMs with
  | none => none
  | some cand =>
      match maxByPrice (staleWindow snaps nowMs cand.ptype), snaps.getLast? with
      | some pk, some lastS =>
          let tsp : ℚ := ((nowMs - pk.t : ℤ) : ℚ) / 1000 / 60
          let drop : ℚ := (pk.price - lastS.price) / pk.price * 100
          if tsp > 3 ∧ drop < 3/2 then none else some cand
      | _, _ => none

/-! ## Level calculator (`sl_tp_calculator.py`, `UltraSmartCalculator`)

Notes on this repository's runtime environment, reflected in the embedding:
`from advanced_analyzers import AdvancedAnalyzer, PsychologyLevels` fails
(this repository's `advanced_analyzers.py` defines neither class), so
`self.advanced` and `PsychologyLevels` are `None`: `cvd_mult` is always 1,
no liquidation targets are collected, and the psychological-level snap is
skipped.  The GodEye and Dominator sub-analyzers do load; their TP
multipliers are opaque to the claims and enter the embedding as inputs,
applied under exactly the guards the source uses. -/

/-- A kline `[timestamp, open, high, low, close, volume]`. -/
structure Kline where
  t : ℤ
  openP : ℚ
  high : ℚ
  low : ℚ
  close : ℚ
  vol : ℚ
deriving DecidableEq

/-- An orderbook snapshot; only the bid side is consulted by the calculator. -/
structure Orderbook where
  bids : List (ℚ × ℚ)
  asks : List (ℚ × ℚ)
deriving DecidableEq

/-- The per-coin history statistics returned by `_get_coin_history` (from the
database, or the `{25.0, 0.5, 0}` default when there is no history). -/
structure CoinStats where
  avg_dump_pct : ℚ
  reliability : ℚ
  total_pumps : ℕ
deriving DecidableEq

/-- The default `_get_coin_history` result for a coin without history. -/
def defaultCoinStats : CoinStats := ⟨25, 1/2, 0⟩

/-- `_analyze_candle_structure`: the TP multiplier derived from the shape of
the last candle (the descriptive string of the source is presentation-only
and dropped here). -/
def candleMult (c : Kline) : ℚ :=
  let body := ratAbs (c.close - c.openP)
  let upper_wick := c.high - max c.openP c.close
  let total_range := c.high - c.low
  if total_range = 0 then 1
  else
    let upper_ratio := upper_wick / total_range
    let body_ratio := body / total_range
    if upper_ratio > 6/10 then 13/10
    else if upper_ratio > 4/10 ∧ body_ratio < 3/10 then 12/10
    else if body_ratio < 1/10 then 9/10
    else if c.close < c.openP ∧ body_ratio > 7/10 then 115/100
    else 1

/-- One true range of `_calculate_atr_percent`: current bar's high/low
against the previous bar's close. -/
def trueRange (prev cur : Kline) : ℚ :=
  max (cur.high - cur.low) (max (ratAbs (cur.high - prev.close)) (ratAbs (cur.low - prev.close)))

/-- The `range(1, min(15, len(klines)))` pairs of `_calculate_atr_percent`. -/
def trueRanges (klines : List Kline) : List ℚ :=
  (List.range' 1 (min 15 klines.length - 1)).filterMap (fun i =>
    match klines.get? (i - 1), klines.get? i with
    | some prev, some cur => some (trueRange prev cur)
    | _, _ => none)

/-- `_calculate_atr_percent`: mean true range as a percentage of the current
price.  A division by a zero `current_price` raises in Python and is caught
by the function's own handler, which returns the 5 % default. -/
def atrPercent (klines : List Kline) (current_price : ℚ) : ℚ :=
  let trs := trueRanges klines
  if trs = [] then 5
  else if current_price = 0 then 5
  else (trs.sum / trs.length) / current_price * 100

/-- `_adjust_to_liquidity`: snap a TP target to just above the biggest bid
wall within ±3 % of the target.  `best_wall` at price `0.0` is falsy in
Python, so a zero-priced wall falls back to the target. -/
def adjustToLiquidity (target : ℚ) (bids : List (ℚ × ℚ)) : ℚ :=
  match bids with
  | [] => target
  | _ =>
      let searchRange := target * (3/100)
      let best := bids.foldl
        (fun (b : Option ℚ × ℚ) item =>
          if ratAbs (item.1 - target) ≤ searchRange ∧ item.2 > b.2 then (some item.1, item.2)
          else b)
        (none, 0)
      match best.1 with
      | some w => if w ≠ 0 ∧ best.2 > 0 then w * (1003/1000) else target
      | none => target

/-- The calculator's result: a stop loss and the three take profits. -/
structure CalcResult where
  stop_loss : ℚ
  take_profits : List ℚ
deriving DecidableEq

/-- `_fallback`: the reserve levels returned when any step of `calculate`
raises. -/
def calcFallback (entry_price : ℚ) : CalcResult :=
  ⟨entry_price * 1.05, [entry_price * 0.92, entry_price * 0.85, entry_price * 0.75]⟩

/-- The body of `UltraSmartCalculator.calculate` under its `try`.  The only
uncaught failure reachable from well-typed inputs is the `ZeroDivisionError`
in `pump_pct` when `start_price = 0` (every other division is guarded or
sits under an inner handler).  `godEyeMult`/`domMult` are the TP multipliers
the loaded GodEye/Dominator sub-analyzers would return; the source consults
them only when klines (and, for Dominator, the orderbook) are present. -/
def calculateE (stats : CoinStats) (entry_price peak_price start_price : ℚ)
    (pump_speed_minutes : ℚ) (klines : List Kline) (orderbook : Option Orderbook)
    (godEyeMult domMult : ℚ) : Except Unit CalcResult :=
  if start_price = 0 then .error ()
  else
    let speed_mult : ℚ :=
      if pump_speed_minutes ≤ 2 then 1.4
      else if pump_speed_minutes ≤ 5 then 1.2
      else if pump_speed_minutes ≤ 10 then 1
      else 0.8
    let candle_mult : ℚ := match klines.getLast? with
      | some c => candleMult c
      | none => 1
    let atr_pct : ℚ := if 14 ≤ klines.length then atrPercent klines entry_price else 5
    let fib_range := peak_price - start_price
    let fib_382 := peak_price - fib_range * 0.382
    let fib_500 := peak_price - fib_range * 0.500
    let fib_618 := peak_price - fib_range * 0.618
    let base_tp1 := fib_382
    let base_tp2 :=
      if 3 ≤ stats.total_pumps ∧ stats.reliability > 6/10 then
        (start_price + fib_range * (1 - stats.avg_dump_pct / 100)) * 0.6 + fib_500 * 0.4
      else fib_500
    let base_tp3 :=
      if 3 ≤ stats.total_pumps ∧ stats.reliability > 6/10 then
        (start_price + fib_range * (1 - stats.avg_dump_pct / 100)) * 0.95 * 0.6 + fib_618 * 0.4
      else fib_618
    let god_eye_mult : ℚ := if klines ≠ [] then godEyeMult else 1
    let dominator_mult : ℚ := if klines ≠ [] ∧ orderbook ≠ none then domMult else 1
    let final_mult := speed_mult * candle_mult * god_eye_mult * dominator_mult
    let tp1 := entry_price - (entry_price - base_tp1) * final_mult
    let tp2 := entry_price - (entry_price - base_tp2) * final_mult
    let tp3 := entry_price - (entry_price - base_tp3) * final_mult
    let tp1 := match orderbook with
      | some ob => adjustToLiquidity tp1 ob.bids
      | none => tp1
    let tp2 := match orderbook with
      | some ob => adjustToLiquidity tp2 ob.bids
      | none => tp2
    let tp3 := match orderbook with
      | some ob => adjustToLiquidity tp3 ob.bids
      | none => tp3
    let min_sl := peak_price * 1.01
    let atr_sl := entry_price * (1 + atr_pct * 1.5 / 100)
    let sl := min (max min_sl atr_sl) (entry_price * 1.10)
    .ok ⟨sl, [tp1, tp2, tp3]⟩

/-- `UltraSmartCalculator.calculate`: the `try` body, with the `except`
handler returning `_fallback(entry_price)`. -/
def calculate (stats : CoinStats) (entry_price peak_price start_price : ℚ)
    (pump_speed_minutes : ℚ) (klines : List Kline) (orderbook : Option Orderbook)
    (godEyeMult domMult : ℚ) : CalcResult :=
  match calculateE stats entry_price peak_price start_price pump_speed_minutes klines
      orderbook godEyeMult domMult with
  | .ok r => r
  | .error _ => calcFallback entry_price

/-! ## God-brain coin memory (`god_brain.py`) -/

/-- One `coin_memory` record (`get_coin_intelligence`'s shape). -/
structure CoinIntel where
  total_signals : ℕ
  win_rate : ℚ
  tp_multiplier : ℚ
  sl_multiplier : ℚ
  confidence_adjustment : ℚ
  recommended_action : String
  tp1_hit_rate : ℚ
  tp2_hit_rate : ℚ
  tp3_hit_rate : ℚ
  sl_hit_rate : ℚ
deriving DecidableEq

/-- The default intelligence for a coin absent from `coin_memory`
(`god_brain.py`, lines 420–433). -/
def defaultCoinIntel : CoinIntel :=
  { total_signals := 0
    win_rate := 1/2
    tp_multiplier := 1
    sl_multiplier := 1
    confidence_adjustment := 0
    recommended_action := "TRADE"
    tp1_hit_rate := 0
    tp2_hit_rate := 0
    tp3_hit_rate := 0
    sl_hit_rate := 0 }

/-- One `signal_memory` row, with the fields the claims consult.  `hour` is
the hour extracted from `created_at`. -/
structure SignalRow where
  pump_pct : ℚ
  combined_score : ℚ
  god_eye_score : ℚ
  dominator_score : ℚ
  orderbook_score : ℚ
  oi_score : ℚ
  funding_score : ℚ
  btc_score : ℚ
  liq_score : ℚ
  pump_speed_minutes : ℚ
  hour : ℕ
  final_result : Option String
deriving DecidableEq

/-- The god-brain state: the in-memory per-coin intelligence map plus the
`signal_memory` table.  `rows symbol` lists that symbol's rows ordered
newest first, which is how every query the claims touch reads them
(`ORDER BY created_at DESC`). -/
structure GodBrain where
  coin_memory : List (String × CoinIntel)
  rows : String → List SignalRow

/-- `get_coin_intelligence`: the stored record, or the neutral default. -/
def get_coin_intelligence (gb : GodBrain) (symbol : String) : CoinIntel :=
  match gb.coin_memory.lookup symbol with
  | some intel => intel
  | none => defaultCoinIntel

/-- `get_adjusted_tps`: scale each TP's distance from entry by the coin's
`tp_multiplier`; a multiplier of exactly 1 returns the list untouched. -/
def get_adjusted_tps (gb : GodBrain) (symbol : String) (tps : List ℚ) (entry_price : ℚ) :
    List ℚ :=
  let m := (get_coin_intelligence gb symbol).tp_multiplier
  if m = 1 then tps
  else tps.map (fun tp => entry_price - (entry_price - tp) * m)

/-! ## God-brain learning queries (`god_brain.py`, lines 580–964) -/

/-- Python's `result and result.startswith('WIN')` on a nullable column. -/
def isWinResult (r : Option String) : Bool :=
  match r with
  | some s => s.startsWith "WIN"
  | none => false

/-- The rows every learning query reads: `WHERE symbol = ? AND final_result
IS NOT NULL ORDER BY created_at DESC` (the state already keeps rows newest
first). -/
def finalizedRows (gb : GodBrain) (symbol : String) : List SignalRow :=
  (gb.rows symbol).filter (fun r => r.final_result.isSome)

/-- `get_weighted_win_rate` with the default decay factor 0.95: win rate
weighted by `0.95^i`, newest first; `0.5` when the symbol has no rows. -/
def get_weighted_win_rate (gb : GodBrain) (symbol : String) : ℚ :=
  let rows := finalizedRows gb symbol
  if rows = [] then 1/2
  else
    let weighted_wins := (rows.enum.map (fun p =>
      if isWinResult p.2.final_result then (19/20 : ℚ) ^ p.1 else 0)).sum
    let total_weight := (rows.enum.map (fun p => (19/20 : ℚ) ^ p.1)).sum
    if total_weight > 0 then weighted_wins / total_weight else 1/2

/-- `find_similar_signals`: finalized rows for the symbol with
`|pump_pct − p| < 10` and `|combined_score − s| < 2`, newest first, at most
`limit` of them. -/
def find_similar_signals (gb : GodBrain) (symbol : String) (pump_pct combined : ℚ)
    (limit : ℕ) : List SignalRow :=
  ((finalizedRows gb symbol).filter (fun r =>
    ratAbs (r.pump_pct - pump_pct) < 10 ∧ ratAbs (r.combined_score - combined) < 2)).take limit

/-- The part of `get_streak_info`'s result that `get_smart_prediction`
consumes (`streak_type` is presentation-only and dropped). -/
structure StreakInfo where
  current_streak : ℤ
  max_win_streak : ℕ
  max_loss_streak : ℕ
  is_hot : Bool
  is_cold : Bool
deriving DecidableEq

/-- The `max_win`/`max_loss` fold of `get_streak_info` over the results,
carrying `(max_win, max_loss, current_win, current_loss)`. -/
def maxStreaks (results : List (Option String)) : ℕ × ℕ :=
  let acc := results.foldl
    (fun (a : ℕ × ℕ × ℕ × ℕ) r =>
      if isWinResult r then (max a.1 (a.2.2.1 + 1), a.2.1, a.2.2.1 + 1, 0)
      else (a.1, max a.2.1 (a.2.2.2 + 1), 0, a.2.2.2 + 1))
    (0, 0, 0, 0)
  (acc.1, acc.2.1)

/-- `get_streak_info`: the run of same-classified results ending at the
newest row (negative for a loss run), the maximal win/loss runs, and the
hot/cold flags at three in a row. -/
def get_streak_info (gb : GodBrain) (symbol : String) : StreakInfo :=
  let results := (finalizedRows gb symbol).map (fun r => r.final_result)
  match results with
  | [] => ⟨0, 0, 0, false, false⟩
  | r0 :: _ =>
      let winFirst := isWinResult r0
      let run : ℤ := (results.takeWhile (fun r => isWinResult r == winFirst)).length
      let cur : ℤ := if winFirst then run else -run
      let ms := maxStreaks results
      ⟨cur, ms.1, ms.2, 3 ≤ cur, cur ≤ -3⟩

/-- Python's `min` over a nonempty list of rationals (0 as a dummy for the
empty case, which no caller reaches). -/
def listMinQ : List ℚ → ℚ
  | [] => 0
  | x :: xs => xs.foldl min x

/-- Python's `max` over a nonempty list of rationals. -/
def listMaxQ : List ℚ → ℚ
  | [] => 0
  | x :: xs => xs.foldl max x

/-- Dictionary keys of `hour_counts` in first-occurrence order, as Python's
insertion-ordered dict produces them. -/
def dedupFirst (l : List ℕ) : List ℕ :=
  l.foldl (fun acc h => if h ∈ acc then acc else acc ++ [h]) []

/-- `sorted(hour_counts.keys(), key=count, reverse=True)[:3]`: a stable
descending sort by occurrence count, then the top three. -/
def bestHours (hours : List ℕ) : List ℕ :=
  ((dedupFirst hours).mergeSort (fun a b => hours.count b ≤ hours.count a)).take 3

/-- The data of a `get_optimal_conditions` result with `has_data = True`
(`winning_factor_weights` is unused by `get_smart_prediction` and dropped). -/
structure OptimalConditions where
  optimal_pump_range : ℚ × ℚ
  optimal_score_min : ℚ
  best_time_hours : List ℕ
deriving DecidableEq

/-- `get_optimal_conditions`: `none` models the two `has_data: False`
returns (fewer than five finalized rows, or no wins among them). -/
def get_optimal_conditions (gb : GodBrain) (symbol : String) : Option OptimalConditions :=
  let rows := finalizedRows gb symbol
  if rows.length < 5 then none
  else
    let wins := rows.filter (fun r => isWinResult r.final_result)
    if wins = [] then none
    else
      let win_pumps := wins.map (fun w => w.pump_pct)
      let win_scores := wins.map (fun w => w.combined_score)
      some
        { optimal_pump_range := (pyRound 1 (listMinQ win_pumps), pyRound 1 (listMaxQ win_pumps))
          optimal_score_min := pyRound 1 (win_scores.sum / win_scores.length - 1)
          best_time_hours := bestHours (wins.map (fun w => w.hour)) }

/-- The fields of `get_smart_prediction`'s result that the instant-short
path consumes (`reasoning` and `factors` are logging-only and dropped). -/
structure SmartPrediction where
  final_score : ℚ
  prediction : String
  confidence : ℕ
deriving DecidableEq

/-- `get_smart_prediction` (`god_brain.py`, lines 827–964): the smart
overlay score, starting from the neutral 5.0 and adjusted by historical
win rate, weighted win rate, similar signals, streaks, optimal conditions
and a combined-score bonus, clamped to `[0, 10]` and rounded to one
decimal. -/
def get_smart_prediction (gb : GodBrain) (symbol : String) (pump_pct combined : ℚ)
    (hour : ℕ) : SmartPrediction :=
  let intel := get_coin_intelligence gb symbol
  let base_wr := intel.win_rate
  let total_signals := intel.total_signals
  let weighted_wr := get_weighted_win_rate gb symbol
  let similar := find_similar_signals gb symbol pump_pct combined 5
  let similar_wins := (similar.filter (fun s => isWinResult s.final_result)).length
  let similar_wr : ℚ := if similar ≠ [] then (similar_wins : ℚ) / similar.length else 1/2
  let streak := get_streak_info gb symbol
  let optimal := get_optimal_conditions gb symbol
  let score : ℚ := 5
  let score :=
    if base_wr ≥ 7/10 then score + 2
    else if base_wr ≥ 1/2 then score + 1/2
    else if base_wr < 3/10 ∧ 5 ≤ total_signals then score - 2
    else score
  let score :=
    if weighted_wr > base_wr + 1/10 then score + 1/2
    else if weighted_wr < base_wr - 1/10 then score - 1/2
    else score
  let score :=
    if similar ≠ [] ∧ similar_wr ≥ 7/10 then score + 1
    else if similar ≠ [] ∧ similar_wr < 3/10 then score - 1
    else score
  let score :=
    if streak.is_hot then score + 1/2
    else if streak.is_cold then score - 1/2
    else score
  let score :=
    match optimal with
    | some opt =>
        let score :=
          if opt.optimal_pump_range.1 ≤ pump_pct ∧ pump_pct ≤ opt.optimal_pump_range.2 then
            score + 1/2
          else score
        if hour ∈ opt.best_time_hours then score + 1/2 else score
    | none => score
  let score :=
    if combined ≥ 8 then score + 1
    else if combined ≥ 7 then score + 1/2
    else if combined < 5 then score - 1
    else score
  let final_score := max 0 (min 10 score)
  { final_score := pyRound 1 final_score
    prediction :=
      if final_score ≥ 8 then "STRONG_BUY"
      else if final_score ≥ 6 then "BUY"
      else if final_score ≥ 4 then "NEUTRAL"
      else "AVOID"
    confidence :=
      if 20 ≤ total_signals then 90
      else if 10 ≤ total_signals then 70
      else if 5 ≤ total_signals then 50
      else 30 }

/-! ## ML predictor (`ml_predictor.py`) -/

/-- The eleven feature names, in training/prediction order. -/
def feature_names : List String :=
  ["pump_pct", "combined_score", "god_eye_score", "dominator_score", "orderbook_score",
   "oi_score", "funding_score", "btc_score", "liq_score", "pump_speed_minutes", "hour"]

/-- A feature vector extracted from one `signal_memory` row. -/
def rowFeatures (r : SignalRow) : List ℚ :=
  [r.pump_pct, r.combined_score, r.god_eye_score, r.dominator_score, r.orderbook_score,
   r.oi_score, r.funding_score, r.btc_score, r.liq_score, r.pump_speed_minutes, (r.hour : ℚ)]

/-- One per-feature threshold record of the builtin trainer. -/
structure MLThreshold where
  win_avg : ℚ
  loss_avg : ℚ
  threshold : ℚ
deriving DecidableEq

/-- The predictor state persisted in the model file. -/
structure MLState where
  is_trained : Bool
  training_samples : ℕ
  feature_weights : List (String × ℚ)
  feature_thresholds : List (String × MLThreshold)
deriving DecidableEq

/-- `_train_builtin`: per-feature difference of win/loss means as the
weight, and their midpoint as the threshold. -/
def trainBuiltin (st : MLState) (X : List (List ℚ)) (y : List Bool) : MLState :=
  let stats := feature_names.enum.map (fun p =>
    let feature_values := X.map (fun x => x.getD p.1 0)
    let pairs := feature_values.zip y
    let win_vals := (pairs.filter (fun q => q.2)).map (fun q => q.1)
    let loss_vals := (pairs.filter (fun q => !q.2)).map (fun q => q.1)
    let win_avg : ℚ := if win_vals = [] then 5 else win_vals.sum / win_vals.length
    let loss_avg : ℚ := if loss_vals = [] then 5 else loss_vals.sum / loss_vals.length
    (p.2, pyRound 4 (win_avg - loss_avg),
      MLThreshold.mk (pyRound 2 win_avg) (pyRound 2 loss_avg)
        (pyRound 2 ((win_avg + loss_avg) / 2))))
  { st with
    is_trained := true
    feature_weights := stats.map (fun s => (s.1, s.2.1))
    feature_thresholds := stats.map (fun s => (s.1, s.2.2)) }

/-- `MLPredictor.train` on the finalized rows (the builtin path; sklearn is
an environment-dependent alternative with the same refusal guard).  Refuses
to fit — returning `False` with the state untouched — below `min_samples`
(default 20) rows. -/
def MLPredictor_train (st : MLState) (rows : List SignalRow) : MLState × Bool :=
  if rows.length < 20 then (st, false)
  else
    let X := rows.map rowFeatures
    let y := rows.map (fun r => isWinResult r.final_result)
    (trainBuiltin { st with training_samples := rows.length } X y, true)

/-- The fields of a `predict` result that the instant-short path consumes
(`feature_contributions` and `recommendation` are presentation-only). -/
structure MLOutput where
  probability : ℚ
  prediction : String
  confidence : String
deriving DecidableEq

/-- `_predict_builtin`.  The sigmoid `1/(1+exp(−x))` is transcendental, so
the embedding is parametrized by its implementation; nothing the claims
prove depends on its values. -/
def predictBuiltin (sigmoid : ℚ → ℚ) (st : MLState) (features : List ℚ) : MLOutput :=
  let score := (feature_names.enum.map (fun p =>
    let value := features.getD p.1 0
    let weight := (st.feature_weights.lookup p.2).getD 0
    match st.feature_thresholds.lookup p.2 with
    | some th => (value - th.threshold) * weight * (1/10)
    | none => 0)).sum
  let prob := if ratAbs score < 10 then sigmoid score else if score > 0 then 1 else 0
  let prob := pyRound 3 prob
  { probability := prob
    prediction := if prob ≥ 1/2 then "WIN" else "LOSS"
    confidence :=
      if 50 ≤ st.training_samples then "HIGH"
      else if 20 ≤ st.training_samples then "MEDIUM"
      else "LOW" }

/-- `MLPredictor.predict`: the untrained predictor answers probability 0.5
with confidence `NO_MODEL`; a trained one runs the builtin scorer. -/
def MLPredictor_predict (sigmoid : ℚ → ℚ) (st : MLState) (features : List ℚ) : MLOutput :=
  if st.is_trained = false then ⟨1/2, "UNKNOWN", "NO_MODEL"⟩
  else predictBuiltin sigmoid st features

/-! ## Instant-short scoring pipeline (`bot_rest.py`, lines 852–900) -/

/-- The ten per-analyzer scores the instant-short path collects. -/
structure AnalyzerScores where
  god_eye : ℚ
  dominator : ℚ
  oi : ℚ
  funding : ℚ
  ob : ℚ
  btc : ℚ
  liq : ℚ
  mtf : ℚ
  vol : ℚ
  cross : ℚ
deriving DecidableEq

/-- `combined_score`: the unweighted mean of the ten analyzer scores
(line 853). -/
def combined_score (s : AnalyzerScores) : ℚ :=
  (s.god_eye + s.dominator + s.oi + s.funding + s.ob + s.btc + s.liq + s.mtf + s.vol +
    s.cross) / 10

/-- The ML blend of lines 860–881: when the predictor reports other than
`NO_MODEL`, the adjusted score is averaged with `probability · 10`. -/
def blendML (adjusted_score : ℚ) (ml : MLOutput) : ℚ :=
  if ml.confidence ≠ "NO_MODEL" then (adjusted_score + ml.probability * 10) / 2
  else adjusted_score

/-- The final quality score of the instant-short path: the unweighted mean
of the ten scores feeds `get_smart_prediction`, whose `final_score` becomes
`adjusted_score`, then the ML blend applies. -/
def instantFinalScore (gb : GodBrain) (symbol : String) (scores : AnalyzerScores)
    (pump_pct : ℚ) (hour : ℕ) (ml : MLOutput) : ℚ :=
  blendML (get_smart_prediction gb symbol pump_pct (combined_score scores) hour).final_score ml

/-- The combination claim C1 asserts, written from the spec's words
(spec §4.5 steps 1–3): `base` the unweighted mean, `adjusted = base +
confidence_adjustment` clamped to `[0, 10]`, blended with the classifier
probability when trained. -/
def specQualityScore (gb : GodBrain) (symbol : String) (scores : AnalyzerScores)
    (ml : MLOutput) : ℚ :=
  let base := combined_score scores
  let adjusted :=
    max 0 (min 10 (base + (get_coin_intelligence gb symbol).confidence_adjustment))
  if ml.confidence ≠ "NO_MODEL" then (adjusted + ml.probability * 10) / 2 else adjusted

/-- The tier gate of lines 892–900: `some label` when the signal is
broadcast and recorded, `none` when the function returns early (C-tier). -/
def instantTierAction (adjusted_score : ℚ) : Option String :=
  if adjusted_score ≥ 8 then some "A-TIER"
  else if adjusted_score ≥ 6 then some "B-TIER"
  else none

/-! ## Signal tracker (`signal_tracker.py`, `check_signals`) -/

/-- The mutable per-signal record of `SignalTracker.active_signals`. -/
structure TrackedSignal where
  entry_price : ℚ
  peak_price : ℚ
  checked_5m : Bool
  checked_15m : Bool
  checked_60m : Bool
  price_5m : Option ℚ
  price_15m : Option ℚ
  price_60m : Option ℚ
  result : Option String
  profit_pct : Option ℚ
deriving DecidableEq

/-- A freshly added signal (`add_signal`). -/
def newTrackedSignal (entry_price peak_price : ℚ) : TrackedSignal :=
  ⟨entry_price, peak_price, false, false, false, none, none, none, none, none⟩

/-- The 5-minute check of `check_signals` (lines 92–98): record the price
once, when at least 5 minutes have elapsed and the fetch succeeds. -/
def check5 (sig : TrackedSignal) (time_elapsed : ℚ) (fetch : Option ℚ) : TrackedSignal :=
  if 5 ≤ time_elapsed ∧ sig.checked_5m = false then
    match fetch with
    | some p => { sig with price_5m := some p, checked_5m := true }
    | none => sig
  else sig

/-- The 15-minute check (lines 101–107). -/
def check15 (sig : TrackedSignal) (time_elapsed : ℚ) (fetch : Option ℚ) : TrackedSignal :=
  if 15 ≤ time_elapsed ∧ sig.checked_15m = false then
    match fetch with
    | some p => { sig with price_15m := some p, checked_15m := true }
    | none => sig
  else sig

/-- The final 60-minute check (lines 110–141): record the price, classify
`win` iff the short is in profit — `(entry − price)/entry · 100 > 0` — and
complete the signal (the returned flag is membership in
`completed_signals`, i.e. removal from tracking). -/
def check60 (sig : TrackedSignal) (time_elapsed : ℚ) (fetch : Option ℚ) :
    TrackedSignal × Bool :=
  if 60 ≤ time_elapsed ∧ sig.checked_60m = false then
    match fetch with
    | some p =>
        let profit := (sig.entry_price - p) / sig.entry_price * 100
        ({ sig with
            price_60m := some p
            checked_60m := true
            result := some (if profit > 0 then "win" else "loss")
            profit_pct := some profit }, true)
    | none => (sig, false)
  else (sig, false)

/-- One pass of `check_signals` over a single signal: `time_elapsed` is the
minutes since creation; `fetch5`/`fetch15`/`fetch60` are the pass's three
(possibly failing) price reads. -/
def checkSignal (sig : TrackedSignal) (time_elapsed : ℚ)
    (fetch5 fetch15 fetch60 : Option ℚ) : TrackedSignal × Bool :=
  check60 (check15 (check5 sig time_elapsed fetch5) time_elapsed fetch15) time_elapsed fetch60

/-- The outcome classification claim C3 asserts, written from the spec's
words (§4.7.1): five samples at 5/15/30/60/240 min, TP hit iff some sample
at most the level, SL hit iff some sample at least the stop, first TP hit
in time wins at the deepest level that sample reached, LOSS_SL when the
stop was hit before any TP, otherwise BREAKEVEN within ±0.5 % of entry at
the last sample and TIMEOUT else. -/
def specOutcome (entry sl tp1 tp2 tp3 : ℚ) (samples : List ℚ) : String :=
  let firstHit := samples.find? (fun p => p ≤ tp1 ∨ sl ≤ p)
  match firstHit with
  | some p =>
      if p ≤ tp1 then
        if p ≤ tp3 then "WIN_TP3" else if p ≤ tp2 then "WIN_TP2" else "WIN_TP1"
      else "LOSS_SL"
  | none =>
      match samples.getLast? with
      | some lastP => if ratAbs ((lastP - entry) / entry) * 100 ≤ 1/2 then "BREAKEVEN"
          else "TIMEOUT"
      | none => "TIMEOUT"

/-! ## Funding-rate scoring (`funding_rate_analyzer.py` and `bot_rest.py`) -/

/-- The payload of `get_funding_rate` that scoring consults. -/
structure FundingData where
  funding_rate : ℚ
deriving DecidableEq

/-- `FundingRateAnalyzer.calculate_funding_score`: the analyzer's
piecewise map over the funding-rate percentage, clamped to `[0, 10]`. -/
def calculate_funding_score (funding_data : Option FundingData) : ℚ :=
  match funding_data with
  | none => 0
  | some fd =>
      let funding_rate_pct := fd.funding_rate * 100
      if funding_rate_pct < 0 then 0
      else
        let score :=
          if funding_rate_pct ≥ 0.20 then 10
          else if funding_rate_pct ≥ 0.10 then 7 + (funding_rate_pct - 0.10) / 0.10 * 3
          else if funding_rate_pct ≥ 0.05 then 5 + (funding_rate_pct - 0.05) / 0.05 * 2
          else if funding_rate_pct ≥ 0.01 then 2 + (funding_rate_pct - 0.01) / 0.04 * 3
          else funding_rate_pct / 0.01 * 2
        min (max score 0) 10

/-- The step map the instant-short path uses instead (`bot_rest.py`,
lines 788–802). -/
def instantFundingScore (fr_pct : ℚ) : ℚ :=
  if fr_pct ≥ 0.10 then 9
  else if fr_pct ≥ 0.05 then 7
  else if fr_pct > 0 then 5
  else 2

/-- The piecewise-linear map claim C8 asserts, written from the spec's
words: anchors `(0, 0), (0.01, 2), (0.05, 5), (0.10, 7), (0.20, 10)`,
interpolated linearly between and constant outside. -/
def specFundingLinear (pct : ℚ) : ℚ :=
  if pct ≤ 0 then 0
  else if pct < 0.01 then pct / 0.01 * 2
  else if pct < 0.05 then 2 + (pct - 0.01) / (0.05 - 0.01) * 3
  else if pct < 0.10 then 5 + (pct - 0.05) / (0.10 - 0.05) * 2
  else if pct < 0.20 then 7 + (pct - 0.10) / (0.20 - 0.10) * 3
  else 10

/-! ## Instant-short level pipeline (`bot_rest.py`, `send_instant_short_signal`) -/

/-- The 50/50 blend of the calculator TPs with the ultra-orderbook TPs
(lines 736–747), applied only when the orderbook analysis produced targets. -/
def obBlend (tps : List ℚ) (obTps : Option (ℚ × ℚ × ℚ)) : List ℚ :=
  match obTps, tps with
  | some (a, b, c), [t1, t2, t3] => [(t1 + a) / 2, (t2 + b) / 2, (t3 + c) / 2]
  | _, _ => tps

/-- The take-profit list the instant-short signal broadcasts: calculator
TPs, optional orderbook blend, god-brain memory adjustment, then the final
ascending sort of line 909 (after the memory adjustment). -/
def instantShortTps (gb : GodBrain) (symbol : String) (stats : CoinStats)
    (entry_price peak_price start_price pump_speed_minutes : ℚ) (klines : List Kline)
    (orderbook : Option Orderbook) (godEyeMult domMult : ℚ)
    (obTps : Option (ℚ × ℚ × ℚ)) : List ℚ :=
  let tps := (calculate stats entry_price peak_price start_price pump_speed_minutes klines
    orderbook godEyeMult domMult).take_profits
  let tps := obBlend tps obTps
  let tps := get_adjusted_tps gb symbol tps entry_price
  tps.mergeSort (fun a b => a ≤ b)

/-- The stop loss the instant-short signal broadcasts (the orderbook blend
and the memory adjustment touch only the TPs). -/
def instantShortSl (stats : CoinStats)
    (entry_price peak_price start_price pump_speed_minutes : ℚ) (klines : List Kline)
    (orderbook : Option Orderbook) (godEyeMult domMult : ℚ) : ℚ :=
  (calculate stats entry_price peak_price start_price pump_speed_minutes klines
    orderbook godEyeMult domMult).stop_loss

/-! ## Store lemmas for claim C5 -/

lemma prune_keep_last (Y : List Snapshot) (s : Snapshot) :
    pruneSnapshots (Y ++ [s]) s.t = pruneSnapshots Y s.t ++ [s] := by
  unfold pruneSnapshots
  rw [List.filter_append]
  congr 1
  simp only [List.filter_cons, List.filter_nil]
  rw [if_pos]
  simp only [decide_eq_true_eq]
  omega

lemma prune_idem (l : List Snapshot) (ts : ℤ) :
    pruneSnapshots (pruneSnapshots l ts) ts = pruneSnapshots l ts := by
  unfold pruneSnapshots
  rw [List.filter_filter]
  congr 1
  funext x
  rw [Bool.and_self]

lemma insertSnapshot_shape (store : List Snapshot) (s : Snapshot) :
    insertSnapshot store s = [s] ∨ insertSnapshot store s = store ++ [s] ∨
    insertSnapshot store s = store.dropLast ++ [s] ∨
    (insertSnapshot store s = store ∧ store.length = 1) := by
  unfold insertSnapshot
  rcases h1 : store.getLast? with _ | s0 <;>
    rcases h2 : store.dropLast.getLast? with _ | prevS <;> simp only [h1, h2]
  · left; trivial
  · left; trivial
  · have hne : store ≠ [] := by
      intro hnil
      rw [hnil] at h1
      simp at h1
    have hlen : store.length = 1 := by
      have hd : store.dropLast = [] := by
        rwa [List.getLast?_eq_none_iff] at h2
      have hdl := List.length_dropLast store
      rw [hd] at hdl
      have hpos : 0 < store.length := List.length_pos.mpr hne
      simp at hdl
      omega
    split
    · right; left; rfl
    · right; right; right; exact ⟨rfl, hlen⟩
  · split_ifs <;> first | (right; left; rfl) | (right; right; left; rfl)

lemma scanInsert_decomp (store : List Snapshot) (s : Snapshot)
    (h2 : 2 ≤ (scanInsert store s).length) :
    ∃ Z, Z ≠ [] ∧ scanInsert store s = Z ++ [s] := by
  rcases insertSnapshot_shape store s with h | h | h | ⟨h, hlen⟩
  · exfalso
    have : scanInsert store s = [s] := by
      unfold scanInsert
      rw [h]
      unfold pruneSnapshots
      simp only [List.filter_cons, List.filter_nil]
      rw [if_pos]
      simp only [decide_eq_true_eq]
      omega
    rw [this] at h2
    simp at h2
  · refine ⟨pruneSnapshots store s.t, ?_, ?_⟩
    · intro hz
      have hs : scanInsert store s = pruneSnapshots store s.t ++ [s] := by
        unfold scanInsert
        rw [h, prune_keep_last]
      rw [hs, hz] at h2
      simp at h2
    · unfold scanInsert
      rw [h, prune_keep_last]
  · refine ⟨pruneSnapshots store.dropLast s.t, ?_, ?_⟩
    · intro hz
      have hs : scanInsert store s = pruneSnapshots store.dropLast s.t ++ [s] := by
        unfold scanInsert
        rw [h, prune_keep_last]
      rw [hs, hz] at h2
      simp at h2
    · unfold scanInsert
      rw [h, prune_keep_last]
  · exfalso
    have : (scanInsert store s).length ≤ store.length := by
      unfold scanInsert
      rw [h]
      exact List.length_filter_le _ _
    omega

/-- Claim C5, amended.  When the store after the first insert holds at least
two entries and the repeated tick is within 5 s of the second-most-recent
entry, the repeated insert drifts the head in place and the store is
unchanged; otherwise (see the counterexample) a duplicate entry is appended. -/
theorem C5_repeat_insert_drift (store : List Snapshot) (s : Snapshot)
    (h2 : 2 ≤ (scanInsert store s).length)
    (hgap : s.t - (((scanInsert store s).dropLast.getLast?.map Snapshot.t).getD s.t) ≤ 5000) :
    scanInsert (scanInsert store s) s = scanInsert store s := by
  obtain ⟨Z, hZ, hdec⟩ := scanInsert_decomp store s h2
  obtain ⟨prev, hprev⟩ : ∃ p, Z.getLast? = some p := by
    cases hZl : Z.getLast? with
    | none => exact absurd (List.getLast?_eq_none_iff.mp hZl) hZ
    | some p => exact ⟨p, rfl⟩
  rw [hdec] at hgap ⊢
  rw [List.dropLast_concat, hprev] at hgap
  simp at hgap
  have hins : insertSnapshot (Z ++ [s]) s = Z ++ [s] := by
    unfold insertSnapshot
    rw [List.getLast?_concat, List.dropLast_concat, hprev]
    simp only []
    have hdp : (if prev.price > 0 then ratAbs ((s.price - s.price) / s.price) * 100 else 0)
        = (0 : ℚ) := by
      split <;> simp [ratAbs]
    rw [hdp]
    rw [if_neg (by norm_num)]
    rw [if_neg (by norm_num)]
    rw [if_neg (by omega)]
  have hprune : pruneSnapshots (Z ++ [s]) s.t = Z ++ [s] := by
    rw [← hdec]
    unfold scanInsert
    exact prune_idem _ _
  unfold scanInsert
  rw [hins, hprune]

/-- Claim C5 counterexample: build a store from ticks at 0 ms and 2000 ms,
then insert the identical snapshot `(9000 ms, 100, 10)` twice in a row.
Because 9000 ms is more than 5 s after the second-most-recent entry, the
second insert appends instead of drifting, leaving two entries for the tick. -/
theorem C5_counterexample :
    ((scanInsert (scanInsert (scanInsert (scanInsert [] ⟨0, 100, 10⟩) ⟨2000, 100, 10⟩)
        ⟨9000, 100, 10⟩) ⟨9000, 100, 10⟩).countP (fun x => x.t == 9000)) = 2 := by
  have h : scanInsert (scanInsert (scanInsert (scanInsert [] ⟨0, 100, 10⟩) ⟨2000, 100, 10⟩)
        ⟨9000, 100, 10⟩) ⟨9000, 100, 10⟩ =
      [⟨0, 100, 10⟩, ⟨2000, 100, 10⟩, ⟨9000, 100, 10⟩, ⟨9000, 100, 10⟩] := by
    norm_num [scanInsert, insertSnapshot, pruneSnapshots, ratAbs]
  rw [h]
  decide

/-- Witness for `C5_repeat_insert_drift` at a concrete store: two entries at
0 ms and 2000 ms, repeated tick at 4000 ms (gap 4000 ms ≤ 5 s). -/
theorem C5_witness :
    scanInsert (scanInsert [⟨0, 100, 10⟩, ⟨2000, 100, 10⟩] ⟨4000, 100, 10⟩) ⟨4000, 100, 10⟩ =
      scanInsert [⟨0, 100, 10⟩, ⟨2000, 100, 10⟩] ⟨4000, 100, 10⟩ :=
  C5_repeat_insert_drift _ _
    (by norm_num [scanInsert, insertSnapshot, pruneSnapshots, ratAbs])
    (by norm_num [scanInsert, insertSnapshot, pruneSnapshots, ratAbs])

/-! ## Detector lemmas for claim C6 -/

lemma maxByPrice_isSome {l : List Snapshot} (h : l ≠ []) : ∃ pk, maxByPrice l = some pk := by
  cases l with
  | nil => exact absurd rfl h
  | cons a rest => exact ⟨_, rfl⟩

lemma fastCandidate_spec {snaps : List Snapshot} {nowMs : ℤ} {r : PumpResult}
    (h : fastCandidate snaps nowMs = some r) :
    r.ptype = .FAST ∧ 2 ≤ (recentWindow snaps nowMs 5).length := by
  simp only [fastCandidate] at h
  split at h
  · constructor
    · split at h
      · split at h
        · split at h
          · cases Option.some.inj h
            rfl
          · exact absurd h (by simp)
        · exact absurd h (by simp)
      · exact absurd h (by simp)
    · omega
  · exact absurd h (by simp)

lemma eliteCandidate_spec {snaps : List Snapshot} {nowMs : ℤ} {r : PumpResult}
    (h : eliteCandidate snaps nowMs = some r) :
    r.ptype = .ELITE ∧ 2 ≤ (recentWindow snaps nowMs 20).length := by
  simp only [eliteCandidate] at h
  split at h
  · constructor
    · split at h
      · split at h
        · split at h
          · cases Option.some.inj h
            rfl
          · exact absurd h (by simp)
        · exact absurd h (by simp)
      · exact absurd h (by simp)
    · omega
  · exact absurd h (by simp)

lemma pumpCandidate_window {snaps : List Snapshot} {nowMs : ℤ} {cand : PumpResult}
    (h : pumpCandidate snaps nowMs = some cand) :
    staleWindow snaps nowMs cand.ptype ≠ [] ∧ snaps ≠ [] := by
  have hlen : ¬ snaps.length < 2 := by
    intro hlt
    simp [pumpCandidate, hlt] at h
  constructor
  · simp only [pumpCandidate, if_neg hlen] at h
    rcases hf : fastCandidate snaps nowMs with _ | r
    · rw [hf] at h
      simp only at h
      obtain ⟨hty, hl⟩ := eliteCandidate_spec h
      unfold staleWindow
      rw [hty]
      intro hnil
      rw [hnil] at hl
      simp at hl
    · rw [hf] at h
      simp only at h
      cases h
      obtain ⟨hty, hl⟩ := fastCandidate_spec hf
      unfold staleWindow
      rw [hty]
      intro hnil
      rw [hnil] at hl
      simp at hl
  · intro hnil
    rw [hnil] at hlen
    simp at hlen

/-- Claim C6: once a FAST or ELITE candidate has qualified, `detect_pump`
returns nothing exactly when the window peak is more than 3 minutes old and
the latest price has dropped less than 1.5 % from it; in particular a
candidate whose price already fell 1.5 % or more is reported regardless of
peak age. -/
theorem C6_stale_pump_filter (snaps : List Snapshot) (nowMs : ℤ) (cand : PumpResult)
    (hc : pumpCandidate snaps nowMs = some cand) :
    detect_pump snaps nowMs = none ↔
      (peakAgeMin snaps nowMs cand.ptype > 3 ∧ dropFromPeakPct snaps nowMs cand.ptype < 3/2) := by
  obtain ⟨hwin, hsnaps⟩ := pumpCandidate_window hc
  obtain ⟨pk, hpk⟩ := maxByPrice_isSome hwin
  obtain ⟨lastS, hlast⟩ : ∃ p, snaps.getLast? = some p := by
    cases hl : snaps.getLast? with
    | none => exact absurd (List.getLast?_eq_none_iff.mp hl) hsnaps
    | some p => exact ⟨p, rfl⟩
  unfold detect_pump
  rw [hc]
  simp only [hpk, hlast]
  unfold peakAgeMin dropFromPeakPct
  rw [hpk]
  simp only [hlast]
  constructor
  · intro h
    by_contra hcon
    rw [if_neg hcon] at h
    exact absurd h (by simp)
  · intro h
    rw [if_pos h]

/-- Witness for `C6_stale_pump_filter`: a FAST pump whose peak is 4.5 minutes
old but whose price already dropped ≈1.74 % from the peak; the candidate
qualifies and the detector still reports it. -/
theorem C6_witness :
    pumpCandidate [⟨300000, 100, 1⟩, ⟨330000, 115, 1⟩, ⟨599000, 113, 1⟩] 600000 =
        some ⟨15, 1/2, .FAST⟩ ∧
      (detect_pump [⟨300000, 100, 1⟩, ⟨330000, 115, 1⟩, ⟨599000, 113, 1⟩] 600000 = none ↔
        (peakAgeMin [⟨300000, 100, 1⟩, ⟨330000, 115, 1⟩, ⟨599000, 113, 1⟩] 600000 .FAST > 3 ∧
          dropFromPeakPct [⟨300000, 100, 1⟩, ⟨330000, 115, 1⟩, ⟨599000, 113, 1⟩] 600000 .FAST <
            3/2)) := by
  have hc : pumpCandidate [⟨300000, 100, 1⟩, ⟨330000, 115, 1⟩, ⟨599000, 113, 1⟩] 600000 =
      some ⟨15, 1/2, .FAST⟩ := by
    norm_num [pumpCandidate, fastCandidate, recentWindow, minByPrice, maxByPrice, floorTime]
  exact ⟨hc, C6_stale_pump_filter _ _ ⟨15, 1/2, .FAST⟩ hc⟩

/-! ## Level-calculator lemmas for claims C2 and C9 -/

lemma calculate_tps_length (stats : CoinStats) (entry_price peak_price start_price
    pump_speed_minutes : ℚ) (klines : List Kline) (orderbook : Option Orderbook)
    (godEyeMult domMult : ℚ) :
    (calculate stats entry_price peak_price start_price pump_speed_minutes klines orderbook
      godEyeMult domMult).take_profits.length = 3 := by
  unfold calculate
  by_cases hs : start_price = 0
  · simp [calculateE, hs, calcFallback]
  · simp [calculateE, hs]

lemma obBlend_length {tps : List ℚ} (h : tps.length = 3) (obTps : Option (ℚ × ℚ × ℚ)) :
    (obBlend tps obTps).length = 3 := by
  rcases tps with _ | ⟨a, _ | ⟨b, _ | ⟨c, _ | _⟩⟩⟩ <;> simp_all
  rcases obTps with _ | ⟨x, y, z⟩ <;> simp [obBlend]

lemma get_adjusted_tps_length (gb : GodBrain) (symbol : String) (tps : List ℚ)
    (entry_price : ℚ) : (get_adjusted_tps gb symbol tps entry_price).length = tps.length := by
  simp only [get_adjusted_tps]
  split <;> simp

/-- Claim C9: `UltraSmartCalculator.calculate` is total.  The caller always
receives exactly three take-profit prices, and whenever the `try` body
fails the result is the `_fallback` levels
`(entry · 1.05, [entry · 0.92, entry · 0.85, entry · 0.75])`. -/
theorem C9_calculate_total (stats : CoinStats) (entry_price peak_price start_price
    pump_speed_minutes : ℚ) (klines : List Kline) (orderbook : Option Orderbook)
    (godEyeMult domMult : ℚ) :
    (calculate stats entry_price peak_price start_price pump_speed_minutes klines orderbook
        godEyeMult domMult).take_profits.length = 3 ∧
    (calculateE stats entry_price peak_price start_price pump_speed_minutes klines orderbook
        godEyeMult domMult = .error () →
      calculate stats entry_price peak_price start_price pump_speed_minutes klines orderbook
          godEyeMult domMult =
        ⟨entry_price * 1.05, [entry_price * 0.92, entry_price * 0.85, entry_price * 0.75]⟩) := by
  refine ⟨calculate_tps_length _ _ _ _ _ _ _ _ _, fun h => ?_⟩
  unfold calculate
  rw [h]
  rfl

/-- Witness for `C9_calculate_total`: `start_price = 0` makes the `pump_pct`
division raise, and the caller receives exactly the fallback levels. -/
theorem C9_witness :
    calculate defaultCoinStats 100 120 0 1 [] none 1 1 =
      ⟨100 * 1.05, [100 * 0.92, 100 * 0.85, 100 * 0.75]⟩ :=
  (C9_calculate_total defaultCoinStats 100 120 0 1 [] none 1 1).2 (by simp [calculateE])

/-- Claim C2, amended.  For every emitted instant-short signal with
`0 < entry ≤ peak`, the stop loss is strictly above the entry and the final
take-profit list (after the memory-driven adjustment) is sorted ascending
with exactly three prices.  The claim's remaining conjunct — every
take-profit at most the entry — does not hold on the code; see
`C2_counterexample`. -/
theorem C2_levels_invariant (gb : GodBrain) (symbol : String) (stats : CoinStats)
    (entry_price peak_price start_price pump_speed_minutes : ℚ) (klines : List Kline)
    (orderbook : Option Orderbook) (godEyeMult domMult : ℚ) (obTps : Option (ℚ × ℚ × ℚ))
    (he : 0 < entry_price) (hp : entry_price ≤ peak_price) :
    entry_price < instantShortSl stats entry_price peak_price start_price pump_speed_minutes
        klines orderbook godEyeMult domMult ∧
    List.Sorted (· ≤ ·) (instantShortTps gb symbol stats entry_price peak_price start_price
        pump_speed_minutes klines orderbook godEyeMult domMult obTps) ∧
    (instantShortTps gb symbol stats entry_price peak_price start_price pump_speed_minutes
        klines orderbook godEyeMult domMult obTps).length = 3 := by
  refine ⟨?_, ?_, ?_⟩
  · unfold instantShortSl calculate
    by_cases hs : start_price = 0
    · simp only [calculateE, hs, if_pos rfl]
      show entry_price < (calcFallback entry_price).stop_loss
      unfold calcFallback
      show entry_price < entry_price * 1.05
      nlinarith
    · simp only [calculateE, if_neg hs]
      show entry_price <
        min (max (peak_price * 1.01) (entry_price * (1 + _ * 1.5 / 100))) (entry_price * 1.10)
      rw [lt_min_iff]
      constructor
      · rw [lt_max_iff]
        left
        nlinarith
      · nlinarith
  · unfold instantShortTps
    exact List.sorted_mergeSort' _
  · unfold instantShortTps
    rw [List.length_mergeSort]
    rw [get_adjusted_tps_length]
    exact obBlend_length (calculate_tps_length _ _ _ _ _ _ _ _ _) _

/-- Witness for `C2_levels_invariant` at the concrete emitted signal of
`C2_counterexample` (entry 100, peak 200). -/
theorem C2_witness :
    (100 : ℚ) < instantShortSl defaultCoinStats 100 200 100 1 [] none 1 1 ∧
    List.Sorted (· ≤ ·)
      (instantShortTps ⟨[], fun _ => []⟩ "X" defaultCoinStats 100 200 100 1 [] none 1 1 none) ∧
    (instantShortTps ⟨[], fun _ => []⟩ "X" defaultCoinStats 100 200 100 1 [] none 1 1
        none).length = 3 :=
  C2_levels_invariant ⟨[], fun _ => []⟩ "X" defaultCoinStats 100 200 100 1 [] none 1 1 none
    (by norm_num) (by norm_num)

/-- Claim C2 counterexample: with entry 100 after a pump from 100 to 200
(the price gapped back to the start before the reversal confirmed), the
emitted take-profit list contains 186.52 — far above the entry — because
the Fibonacci targets sit above an entry that already retraced most of the
pump.  Nothing in the emission path enforces `tp ≤ entry`. -/
theorem C2_counterexample :
    (186.52 : ℚ) ∈ instantShortTps ⟨[], fun _ => []⟩ "X" defaultCoinStats 100 200 100 1 []
        none 1 1 none ∧
    ¬ ((186.52 : ℚ) ≤ 100) := by
  constructor
  · unfold instantShortTps
    rw [List.mem_mergeSort]
    norm_num [calculate, calculateE, obBlend, get_adjusted_tps, get_coin_intelligence,
      defaultCoinIntel]
  · norm_num

/-! ## Theorems for claims C10, C4, C7 -/

/-- Claim C10: a symbol with no recorded history gets the neutral default
profile, and a first-ever signal's TP list passes through
`get_adjusted_tps` unchanged. -/
theorem C10_fresh_symbol_defaults (gb : GodBrain) (symbol : String) (tps : List ℚ)
    (entry_price : ℚ) (h : gb.coin_memory.lookup symbol = none) :
    get_coin_intelligence gb symbol = defaultCoinIntel ∧
    (get_coin_intelligence gb symbol).total_signals = 0 ∧
    (get_coin_intelligence gb symbol).win_rate = 1/2 ∧
    (get_coin_intelligence gb symbol).tp_multiplier = 1 ∧
    (get_coin_intelligence gb symbol).sl_multiplier = 1 ∧
    (get_coin_intelligence gb symbol).confidence_adjustment = 0 ∧
    (get_coin_intelligence gb symbol).recommended_action = "TRADE" ∧
    get_adjusted_tps gb symbol tps entry_price = tps := by
  have hci : get_coin_intelligence gb symbol = defaultCoinIntel := by
    unfold get_coin_intelligence
    rw [h]
  rw [hci]
  refine ⟨rfl, rfl, rfl, rfl, rfl, rfl, rfl, ?_⟩
  unfold get_adjusted_tps
  rw [hci]
  simp [defaultCoinIntel]

/-- Witness for `C10_fresh_symbol_defaults`: an empty memory and a fresh
symbol. -/
theorem C10_witness :
    get_coin_intelligence ⟨[], fun _ => []⟩ "NEWCOIN" = defaultCoinIntel ∧
    (get_coin_intelligence ⟨[], fun _ => []⟩ "NEWCOIN").total_signals = 0 ∧
    (get_coin_intelligence ⟨[], fun _ => []⟩ "NEWCOIN").win_rate = 1/2 ∧
    (get_coin_intelligence ⟨[], fun _ => []⟩ "NEWCOIN").tp_multiplier = 1 ∧
    (get_coin_intelligence ⟨[], fun _ => []⟩ "NEWCOIN").sl_multiplier = 1 ∧
    (get_coin_intelligence ⟨[], fun _ => []⟩ "NEWCOIN").confidence_adjustment = 0 ∧
    (get_coin_intelligence ⟨[], fun _ => []⟩ "NEWCOIN").recommended_action = "TRADE" ∧
    get_adjusted_tps ⟨[], fun _ => []⟩ "NEWCOIN" [95, 90, 85] 100 = [95, 90, 85] :=
  C10_fresh_symbol_defaults ⟨[], fun _ => []⟩ "NEWCOIN" [95, 90, 85] 100 rfl

/-- Claim C4: an adjusted score below 6.0 broadcasts and records nothing
(the C-tier early return); at least 8.0 emits tier A; in `[6.0, 8.0)` emits
tier B. -/
theorem C4_tier_gate (s : ℚ) :
    (s < 6 → instantTierAction s = none) ∧
    (8 ≤ s → instantTierAction s = some "A-TIER") ∧
    (6 ≤ s → s < 8 → instantTierAction s = some "B-TIER") := by
  unfold instantTierAction
  refine ⟨fun h => ?_, fun h => ?_, fun h1 h2 => ?_⟩
  · rw [if_neg (by linarith), if_neg (by linarith)]
  · rw [if_pos h]
  · rw [if_neg (by linarith), if_pos h1]

/-- Witness for `C4_tier_gate` at scores 5, 9 and 7. -/
theorem C4_witness :
    instantTierAction 5 = none ∧ instantTierAction 9 = some "A-TIER" ∧
      instantTierAction 7 = some "B-TIER" :=
  ⟨(C4_tier_gate 5).1 (by norm_num), (C4_tier_gate 9).2.1 (by norm_num),
    (C4_tier_gate 7).2.2 (by norm_num) (by norm_num)⟩

/-- Claim C7: with fewer than 20 finalized rows, `train` refuses to fit and
leaves the state untouched; an untrained predictor answers probability 0.5
with confidence `NO_MODEL`; and the scoring path's blend leaves the
adjusted score unchanged on a `NO_MODEL` answer. -/
theorem C7_untrained_classifier_ignored (st : MLState) (rows : List SignalRow)
    (sigmoid : ℚ → ℚ) (features : List ℚ) (adjusted_score : ℚ)
    (hlen : rows.length < 20) (hst : st.is_trained = false) :
    MLPredictor_train st rows = (st, false) ∧
    MLPredictor_predict sigmoid st features = ⟨1/2, "UNKNOWN", "NO_MODEL"⟩ ∧
    blendML adjusted_score (MLPredictor_predict sigmoid st features) = adjusted_score := by
  have hp : MLPredictor_predict sigmoid st features = ⟨1/2, "UNKNOWN", "NO_MODEL"⟩ := by
    unfold MLPredictor_predict
    rw [hst]
    simp
  refine ⟨?_, hp, ?_⟩
  · unfold MLPredictor_train
    rw [if_pos hlen]
  · rw [hp]
    unfold blendML
    simp

/-- Witness for `C7_untrained_classifier_ignored`: the fresh predictor
state and an empty outcome table. -/
theorem C7_witness :
    MLPredictor_train ⟨false, 0, [], []⟩ [] = (⟨false, 0, [], []⟩, false) ∧
    MLPredictor_predict id ⟨false, 0, [], []⟩ [] = ⟨1/2, "UNKNOWN", "NO_MODEL"⟩ ∧
    blendML 7 (MLPredictor_predict id ⟨false, 0, [], []⟩ []) = 7 :=
  C7_untrained_classifier_ignored ⟨false, 0, [], []⟩ [] id [] 7 (by norm_num) rfl

/-! ## Theorems for claim C8 -/

lemma clamp_of_bounds {s : ℚ} (h0 : 0 ≤ s) (h10 : s ≤ 10) : min (max s 0) 10 = s := by
  rw [max_eq_left h0, min_eq_left h10]

/-- Claim C8, amended: the analyzer path
(`FundingRateAnalyzer.calculate_funding_score`) does implement the claimed
piecewise-linear map; the instant-short path does not (see
`C8_counterexample`). -/
theorem C8_analyzer_piecewise_linear (fd : FundingData) :
    calculate_funding_score (some fd) = specFundingLinear (fd.funding_rate * 100) := by
  simp only [calculate_funding_score, specFundingLinear]
  set pct := fd.funding_rate * 100 with hpct
  by_cases hneg : pct < 0
  · rw [if_pos hneg, if_pos (le_of_lt hneg)]
  · rw [if_neg hneg]
    push_neg at hneg
    by_cases h20 : pct ≥ 0.20
    · rw [if_pos h20, if_neg (by linarith), if_neg (by linarith), if_neg (by linarith),
        if_neg (by linarith), if_neg (by linarith)]
      norm_num
    · rw [if_neg h20]
      push_neg at h20
      by_cases h10 : pct ≥ 0.10
      · rw [if_pos h10, if_neg (by linarith), if_neg (by linarith), if_neg (by linarith),
          if_neg (by linarith), if_pos h20]
        have ht0 : (0 : ℚ) ≤ (pct - 0.10) / 0.10 * 3 :=
          mul_nonneg (div_nonneg (by linarith) (by norm_num)) (by norm_num)
        have ht1 : (pct - 0.10) / 0.10 < 1 := (div_lt_one (by norm_num)).mpr (by linarith)
        rw [clamp_of_bounds (by linarith) (by linarith)]
        norm_num
      · rw [if_neg h10]
        push_neg at h10
        by_cases h05 : pct ≥ 0.05
        · rw [if_pos h05, if_neg (by linarith), if_neg (by linarith), if_neg (by linarith),
            if_pos h10]
          have ht0 : (0 : ℚ) ≤ (pct - 0.05) / 0.05 * 2 :=
            mul_nonneg (div_nonneg (by linarith) (by norm_num)) (by norm_num)
          have ht1 : (pct - 0.05) / 0.05 < 1 := (div_lt_one (by norm_num)).mpr (by linarith)
          rw [clamp_of_bounds (by linarith) (by linarith)]
          norm_num
        · rw [if_neg h05]
          push_neg at h05
          by_cases h01 : pct ≥ 0.01
          · rw [if_pos h01, if_neg (by linarith), if_neg (by linarith), if_pos h05]
            have ht0 : (0 : ℚ) ≤ (pct - 0.01) / 0.04 * 3 :=
              mul_nonneg (div_nonneg (by linarith) (by norm_num)) (by norm_num)
            have ht1 : (pct - 0.01) / 0.04 < 1 := (div_lt_one (by norm_num)).mpr (by linarith)
            rw [clamp_of_bounds (by linarith) (by linarith)]
            norm_num
          · rw [if_neg h01]
            push_neg at h01
            by_cases hz : pct ≤ 0
            · have hz0 : pct = 0 := le_antisymm hz hneg
              rw [if_pos hz, hz0]
              norm_num
            · push_neg at hz
              rw [if_neg (by linarith), if_pos h01]
              have ht0 : (0 : ℚ) ≤ pct / 0.01 * 2 :=
                mul_nonneg (div_nonneg (by linarith) (by norm_num)) (by norm_num)
              have ht1 : pct / 0.01 < 1 := (div_lt_one (by norm_num)).mpr (by linarith)
              rw [clamp_of_bounds (by linarith) (by linarith)]

/-- Claim C8 counterexample: at a funding rate of 0.05 % the analyzer's
piecewise-linear map scores 5.0, but the instant-short path's step map
(`bot_rest.py`, lines 788–802) scores it 7.0 — so not every signal-scoring
code path uses the claimed map. -/
theorem C8_counterexample :
    instantFundingScore 0.05 = 7 ∧ calculate_funding_score (some ⟨0.0005⟩) = 5 ∧
      (7 : ℚ) ≠ 5 := by
  refine ⟨?_, ?_, by norm_num⟩
  · norm_num [instantFundingScore]
  · norm_num [calculate_funding_score, min_def, max_def]

/-! ## Theorems for claim C3 -/

lemma check5_preserves (sig : TrackedSignal) (time_elapsed : ℚ) (fetch : Option ℚ) :
    (check5 sig time_elapsed fetch).checked_60m = sig.checked_60m ∧
    (check5 sig time_elapsed fetch).entry_price = sig.entry_price := by
  unfold check5
  split_ifs <;> cases fetch <;> simp

lemma check15_preserves (sig : TrackedSignal) (time_elapsed : ℚ) (fetch : Option ℚ) :
    (check15 sig time_elapsed fetch).checked_60m = sig.checked_60m ∧
    (check15 sig time_elapsed fetch).entry_price = sig.entry_price := by
  unfold check15
  split_ifs <;> cases fetch <;> simp

/-- Claim C3, amended.  The tracker's final check fires at 60 minutes (not
at a 240-minute horizon, and there are no 30- or 240-minute samples): it
records the 60-minute price and classifies the signal `win` exactly when
the short is in profit there — `(entry − price)/entry · 100 > 0` —
and `loss` otherwise; the TP and SL levels are never consulted and no
BREAKEVEN/TIMEOUT verdict exists. -/
theorem C3_tracker_final_check (sig : TrackedSignal) (time_elapsed : ℚ)
    (fetch5 fetch15 : Option ℚ) (p : ℚ)
    (h60 : 60 ≤ time_elapsed) (hch : sig.checked_60m = false) :
    (checkSignal sig time_elapsed fetch5 fetch15 (some p)).1.result =
      some (if (sig.entry_price - p) / sig.entry_price * 100 > 0 then "win" else "loss") ∧
    (checkSignal sig time_elapsed fetch5 fetch15 (some p)).1.price_60m = some p ∧
    (checkSignal sig time_elapsed fetch5 fetch15 (some p)).2 = true := by
  unfold checkSignal
  have h5 := check5_preserves sig time_elapsed fetch5
  have h15 := check15_preserves (check5 sig time_elapsed fetch5) time_elapsed fetch15
  have hc : (check15 (check5 sig time_elapsed fetch5) time_elapsed fetch15).checked_60m
      = false := by
    rw [h15.1, h5.1, hch]
  have he : (check15 (check5 sig time_elapsed fetch5) time_elapsed fetch15).entry_price
      = sig.entry_price := by
    rw [h15.2, h5.2]
  unfold check60
  rw [if_pos ⟨h60, hc⟩]
  rw [he]
  exact ⟨rfl, rfl, rfl⟩

/-- Witness for `C3_tracker_final_check`: a fresh signal at entry 100
checked once 60 minutes later at price 101. -/
theorem C3_witness :
    (checkSignal (newTrackedSignal 100 110) 60 none none (some 101)).1.result =
      some (if ((newTrackedSignal 100 110).entry_price - 101) /
          (newTrackedSignal 100 110).entry_price * 100 > 0 then "win" else "loss") ∧
    (checkSignal (newTrackedSignal 100 110) 60 none none (some 101)).1.price_60m = some 101 ∧
    (checkSignal (newTrackedSignal 100 110) 60 none none (some 101)).2 = true :=
  C3_tracker_final_check (newTrackedSignal 100 110) 60 none none 101 (by norm_num) rfl

/-- Claim C3 counterexample: entry 100, SL 105, TPs (95, 90, 85).  The
claimed classification over the five samples (96, 94, 96, 101, 101) is
WIN_TP1 (the 15-minute sample 94 hit TP1 and the SL was never hit), but the
code — which samples only at 5, 15 and 60 minutes and compares nothing
against the levels — classifies the signal `loss` because the 60-minute
price 101 sits above the entry. -/
theorem C3_counterexample :
    (checkSignal ((checkSignal ((checkSignal (newTrackedSignal 100 110) 5 (some 96) none
          none).1) 15 none (some 94) none).1) 60 none none (some 101)).1.result =
        some "loss" ∧
    specOutcome 100 105 95 90 85 [96, 94, 96, 101, 101] = "WIN_TP1" ∧
    (some "loss" : Option String) ≠ some "WIN_TP1" := by
  refine ⟨?_, ?_, by simp⟩
  · norm_num [checkSignal, check5, check15, check60, newTrackedSignal]
  · norm_num [specOutcome, ratAbs]

/-! ## Theorems for claim C1 -/

lemma pyRoundInt_bounds {x : ℚ} (h0 : 0 ≤ x) (h100 : x ≤ 100) :
    0 ≤ pyRoundInt x ∧ pyRoundInt x ≤ 100 := by
  simp only [pyRoundInt]
  have hf0 : (0 : ℤ) ≤ ⌊x⌋ := Int.floor_nonneg.mpr h0
  have hfx : (⌊x⌋ : ℚ) ≤ x := Int.floor_le x
  have hf100 : ⌊x⌋ ≤ 100 := by
    have hc : (⌊x⌋ : ℚ) ≤ 100 := le_trans hfx h100
    exact_mod_cast hc
  constructor
  · split_ifs <;> omega
  · split_ifs with h1 h2 h3
    · exact hf100
    · have h99 : (⌊x⌋ : ℚ) < 100 := by linarith
      have : ⌊x⌋ < 100 := by exact_mod_cast h99
      omega
    · exact hf100
    · push_neg at h1
      have h99 : (⌊x⌋ : ℚ) < 100 := by linarith
      have : ⌊x⌋ < 100 := by exact_mod_cast h99
      omega

lemma pyRound_one_bounds {q : ℚ} (h0 : 0 ≤ q) (h10 : q ≤ 10) :
    0 ≤ pyRound 1 q ∧ pyRound 1 q ≤ 10 := by
  have hb := pyRoundInt_bounds (x := q * 10 ^ 1) (by nlinarith) (by nlinarith)
  unfold pyRound
  constructor
  · apply div_nonneg
    · exact_mod_cast hb.1
    · norm_num
  · rw [div_le_iff₀ (by norm_num : (0 : ℚ) < 10 ^ 1)]
    have hc : (pyRoundInt (q * 10 ^ 1) : ℚ) ≤ 100 := by exact_mod_cast hb.2
    linarith

lemma smart_prediction_final_clamped (gb : GodBrain) (symbol : String)
    (pump_pct combined : ℚ) (hour : ℕ) :
    ∃ q, (get_smart_prediction gb symbol pump_pct combined hour).final_score =
      pyRound 1 (max 0 (min 10 q)) :=
  ⟨_, rfl⟩

lemma smart_prediction_bounds (gb : GodBrain) (symbol : String) (pump_pct combined : ℚ)
    (hour : ℕ) :
    0 ≤ (get_smart_prediction gb symbol pump_pct combined hour).final_score ∧
      (get_smart_prediction gb symbol pump_pct combined hour).final_score ≤ 10 := by
  obtain ⟨q, hq⟩ := smart_prediction_final_clamped gb symbol pump_pct combined hour
  rw [hq]
  exact pyRound_one_bounds (le_max_left _ _) (max_le (by norm_num) (min_le_left _ _))

/-- Claim C1, amended.  The instant-short final quality score is **not**
`clamp(base + confidence_adjustment)`: the unweighted mean of the ten
analyzer scores feeds `get_smart_prediction`, whose overlay score (clamped
to `[0, 10]` and rounded to one decimal) becomes the adjusted score, and
only when the classifier reports other than `NO_MODEL` is the result
blended as `(adjusted + probability · 10) / 2`. -/
theorem C1_final_score_structure (gb : GodBrain) (symbol : String) (scores : AnalyzerScores)
    (pump_pct : ℚ) (hour : ℕ) (ml : MLOutput) :
    instantFinalScore gb symbol scores pump_pct hour ml =
      (if ml.confidence = "NO_MODEL" then
        (get_smart_prediction gb symbol pump_pct (combined_score scores) hour).final_score
      else
        ((get_smart_prediction gb symbol pump_pct (combined_score scores) hour).final_score +
          ml.probability * 10) / 2) ∧
    0 ≤ (get_smart_prediction gb symbol pump_pct (combined_score scores) hour).final_score ∧
    (get_smart_prediction gb symbol pump_pct (combined_score scores) hour).final_score
      ≤ 10 := by
  refine ⟨?_, (smart_prediction_bounds gb symbol pump_pct (combined_score scores) hour).1,
    (smart_prediction_bounds gb symbol pump_pct (combined_score scores) hour).2⟩
  unfold instantFinalScore blendML
  by_cases h : ml.confidence = "NO_MODEL"
  · rw [if_neg (fun hn => hn h), if_pos h]
  · rw [if_pos h, if_neg h]

/-- Claim C1 counterexample: ten neutral scores of 5.0, a fresh symbol (no
memory) and an untrained classifier.  The claimed combination gives
`clamp(5 + 0) = 5.0`, but the code's smart-prediction overlay starts at 5.0
and adds +0.5 for the default 50 % win rate, so the emitted quality score
is 5.5. -/
theorem C1_counterexample :
    instantFinalScore ⟨[], fun _ => []⟩ "X" ⟨5, 5, 5, 5, 5, 5, 5, 5, 5, 5⟩ 50 12
        (MLPredictor_predict id ⟨false, 0, [], []⟩ []) = 11/2 ∧
    specQualityScore ⟨[], fun _ => []⟩ "X" ⟨5, 5, 5, 5, 5, 5, 5, 5, 5, 5⟩
        (MLPredictor_predict id ⟨false, 0, [], []⟩ []) = 5 ∧
    (11/2 : ℚ) ≠ 5 := by
  refine ⟨?_, ?_, by norm_num⟩
  · norm_num [instantFinalScore, blendML, MLPredictor_predict, get_smart_prediction,
      get_coin_intelligence, defaultCoinIntel, get_weighted_win_rate, find_similar_signals,
      finalizedRows, get_streak_info, get_optimal_conditions, combined_score, pyRound,
      pyRoundInt, max_def, min_def]
  · norm_num [specQualityScore, MLPredictor_predict, get_coin_intelligence, defaultCoinIntel,
      combined_score, max_def, min_def]

end MMRshort
